import Mathlib

/-
Shallow embedding of the analysis core of the dogecoinanalyzer repository:
src/analyzer/technical_indicators.py (class TechnicalIndicators) and
src/analyzer/predictor.py (class PricePredictor).

Modelling conventions:
* Python floats are modelled by ℚ (exact arithmetic).  IEEE special values
  produced by pandas arithmetic are modelled explicitly: a NaN result is
  `none` of an `Option ℚ`, and the single place where an infinity can arise
  (rs = avg_gain / 0 in calculate_rsi, which then yields rsi = 100) is
  translated as its final finite outcome.
* A pandas Series of prices is a `List ℚ` in chronological order; only the
  latest value of each rolling computation is consumed downstream
  (calculate_all_indicators keeps `.iloc[-1]`), so each indicator is
  embedded as a function returning the latest value as an `Option ℚ`
  (`none` = NaN / undefined).
* The indicator dictionary built by calculate_all_indicators has a fixed
  key set; it is embedded as a record with `Option` fields, `none` meaning
  the key is absent or holds None.
* Python truthiness on an optional float (`if x:`) is: present and nonzero.
* `round(x, 8)` is modelled as rounding x·10⁸ to the nearest integer.
  (Python uses round-half-to-even on binary floats; the difference only
  matters on exact ties, which no statement below depends on.)
-/

namespace DogeAnalyzer

/-- Timeframe → hours table of PricePredictor.analyze_timeframe
(timeframe_hours_map, with .get default 24). -/
def timeframeHours (tf : String) : ℕ :=
  if tf = "1h" then 1
  else if tf = "4h" then 4
  else if tf = "24h" then 24
  else if tf = "7d" then 168
  else if tf = "30d" then 720
  else 24

/-- Timeframe → multiplier table of PricePredictor._predict_price
(timeframe_multipliers, with .get default 0.05). -/
def timeframeMultiplier (tf : String) : ℚ :=
  if tf = "1h" then 1/50
  else if tf = "4h" then 1/20
  else if tf = "24h" then 1/10
  else if tf = "7d" then 1/5
  else if tf = "30d" then 2/5
  else 1/20

/-- Timeframe → confidence adjustment table of
PricePredictor._calculate_confidence (timeframe_confidence_adjustment,
with .get default 0). -/
def timeframeConfidenceAdjustment (tf : String) : ℤ :=
  if tf = "1h" then 0
  else if tf = "4h" then -2
  else if tf = "24h" then -5
  else if tf = "7d" then -15
  else if tf = "30d" then -25
  else 0

/-- Timeframe → display label table of PricePredictor._generate_reasoning
(timeframe_display, with .get default the timeframe string itself). -/
def timeframeDisplay (tf : String) : String :=
  if tf = "1h" then "1 hour"
  else if tf = "4h" then "4 hours"
  else if tf = "24h" then "24 hours"
  else if tf = "7d" then "7 days"
  else if tf = "30d" then "30 days (1 month)"
  else tf

/-- Python truthiness of an optional float: `if x:` is true exactly when x
is present and nonzero. -/
def truthy (o : Option ℚ) : Bool :=
  match o with
  | none => false
  | some q => if q = 0 then false else true

/-- The indicator dictionary produced by
TechnicalIndicators.calculate_all_indicators.  A `none` field models a key
that is absent from the dict or maps to Python None.  `volume_trend` is the
only non-numeric (string) value. -/
structure Indicators where
  rsi : Option ℚ := none
  sma_20 : Option ℚ := none
  sma_50 : Option ℚ := none
  sma_200 : Option ℚ := none
  ema_12 : Option ℚ := none
  ema_26 : Option ℚ := none
  macd : Option ℚ := none
  macd_signal : Option ℚ := none
  macd_histogram : Option ℚ := none
  bb_upper : Option ℚ := none
  bb_middle : Option ℚ := none
  bb_lower : Option ℚ := none
  current_price : Option ℚ := none
  avg_volume : Option ℚ := none
  current_volume : Option ℚ := none
  volume_ratio_value : Option ℚ := none
  volume_trend : Option String := none
  deriving DecidableEq

/-- The empty dict `{}` returned by calculate_all_indicators on empty or
malformed input (every key absent). -/
def emptyIndicators : Indicators := {}

/-- DataFrame abstraction: only the columns and the row count the analysis
core reads.  `none` for a column means the column is absent.  Timestamp
column: the embedding models data frames without a timestamp column, which
in analyze_timeframe selects the `df.tail(...)` windowing branch. -/
structure DataFrame where
  priceCol : Option (List ℚ) := none
  volumeCol : Option (List ℚ) := none
  nrows : ℕ := 0
  deriving DecidableEq

/-- Suffix of length at most k of a list (pandas Series.tail(k) /
DataFrame.tail(k)). -/
def listTail (l : List ℚ) (k : ℕ) : List ℚ :=
  l.drop (l.length - k)

/-- DataFrame.tail(k): keeps the last k rows of every column. -/
def dfTail (df : DataFrame) (k : ℕ) : DataFrame :=
  { priceCol := df.priceCol.map (fun l => listTail l k)
    volumeCol := df.volumeCol.map (fun l => listTail l k)
    nrows := min df.nrows k }

/-- Consecutive differences prices.diff(): element i is p(i+1) − p(i)
(the leading NaN of pandas diff is dropped; calculate_rsi immediately
replaces it by 0 via `delta.where(delta > 0, 0)`, and the latest rolling
window never reaches it because of the length guard). -/
def diffs (prices : List ℚ) : List ℚ :=
  (prices.zip prices.tail).map (fun p => p.2 - p.1)

/-- Latest rolling mean of gains in calculate_rsi:
`(delta.where(delta > 0, 0)).rolling(window=period).mean()` evaluated at
the last index. -/
def avgGainLast (prices : List ℚ) (period : ℕ) : ℚ :=
  ((listTail (diffs prices) period).map (fun d => max d 0)).sum / period

/-- Latest rolling mean of losses in calculate_rsi:
`(-delta.where(delta < 0, 0)).rolling(window=period).mean()` evaluated at
the last index. -/
def avgLossLast (prices : List ℚ) (period : ℕ) : ℚ :=
  ((listTail (diffs prices) period).map (fun d => max (-d) 0)).sum / period

/-- Latest value of TechnicalIndicators.calculate_rsi.  The source computes
`rs = gain / loss; rsi = 100 - 100 / (1 + rs)` on floats: with loss = 0 and
gain > 0, rs = +inf and rsi = 100; with loss = 0 and gain = 0, rs = NaN and
rsi = NaN (undefined).  Both IEEE outcomes are translated explicitly. -/
def calculate_rsi_last (prices : List ℚ) (period : ℕ) : Option ℚ :=
  if prices.length < period + 1 then none
  else
    let g := avgGainLast prices period
    let l := avgLossLast prices period
    if l = 0 then (if g = 0 then none else some 100)
    else some (100 - 100 / (1 + g / l))

/-- Latest value of TechnicalIndicators.calculate_sma:
`prices.rolling(window=period).mean()` at the last index, which is NaN
exactly when fewer than `period` observations exist. -/
def calculate_sma_last (prices : List ℚ) (period : ℕ) : Option ℚ :=
  if prices.length < period then none
  else some ((listTail prices period).sum / period)

/-- Exponential moving average series of
TechnicalIndicators.calculate_ema: `prices.ewm(span=period,
adjust=False).mean()`, i.e. e₀ = p₀ and eᵢ = α·pᵢ + (1−α)·eᵢ₋₁ with
α = 2/(period+1); the series is defined from the very first observation. -/
def emaSeries (period : ℕ) (prices : List ℚ) : List ℚ :=
  match prices with
  | [] => []
  | x :: xs =>
      xs.scanl (fun acc p =>
        2 / ((period : ℚ) + 1) * p + (1 - 2 / ((period : ℚ) + 1)) * acc) x

/-- Latest value of TechnicalIndicators.calculate_ema; defined whenever
the series is nonempty. -/
def calculate_ema_last (prices : List ℚ) (period : ℕ) : Option ℚ :=
  (emaSeries period prices).getLast?

/-- Rounding to 8 decimal places, `round(x, 8)` of
PricePredictor._predict_price. -/
def round8 (x : ℚ) : ℚ :=
  (round (x * 100000000) : ℤ) / 100000000

/-- MACD line series of TechnicalIndicators.calculate_macd:
ema(fast) − ema(slow), pointwise. -/
def macdLineSeries (prices : List ℚ) (fast slow : ℕ) : List ℚ :=
  List.zipWith (fun a b => a - b) (emaSeries fast prices) (emaSeries slow prices)

/-- Latest values of TechnicalIndicators.calculate_macd, as a triple
(macd line, signal line, histogram). -/
def calculate_macd_last (prices : List ℚ) : Option ℚ × Option ℚ × Option ℚ :=
  let macdLine := macdLineSeries prices 12 26
  let signalLine := emaSeries 9 macdLine
  let histogram := List.zipWith (fun a b => a - b) macdLine signalLine
  (macdLine.getLast?, signalLine.getLast?, histogram.getLast?)

/-- Latest rolling sample variance over the Bollinger window: pandas
`prices.rolling(window=period).std()` squared (ddof = 1, so the divisor is
period − 1).  NaN (`none`) when fewer than `period` observations exist. -/
def rollingVarLast (prices : List ℚ) (period : ℕ) : Option ℚ :=
  if prices.length < period then none
  else
    let w := listTail prices period
    let m := w.sum / period
    some ((w.map (fun x => (x - m) ^ 2)).sum / (period - 1))

/-- Latest values of TechnicalIndicators.calculate_bollinger_bands
(upper, middle, lower) with period 20 and num_std 2.  The float square
root of the rolling variance is modelled by Rat.sqrt, which agrees with
the exact square root whenever the variance is a perfect rational square
(in particular at variance 0, the only value the theorems below evaluate
it at). -/
def calculate_bollinger_last (prices : List ℚ) : Option ℚ × Option ℚ × Option ℚ :=
  match calculate_sma_last prices 20, rollingVarLast prices 20 with
  | some m, some v =>
      let s := Rat.sqrt v
      (some (m + s * 2), some m, some (m - s * 2))
  | _, _ => (none, none, none)

/-- Volume dictionary produced by
TechnicalIndicators.calculate_volume_analysis (current_volume is absent
from the dict in the empty-series branch). -/
structure VolumeStats where
  avg_volume : Option ℚ := none
  current_volume : Option ℚ := none
  volume_ratio_value : Option ℚ := none
  volume_trend : Option String := none
  deriving DecidableEq

/-- TechnicalIndicators.calculate_volume_analysis with current_volume
taken from the last element of the series (the only call passes None). -/
def calculate_volume_analysis (volumes : List ℚ) : VolumeStats :=
  if volumes = [] then
    { avg_volume := some 0, volume_ratio_value := some 1,
      volume_trend := some "neutral" }
  else
    let avg := volumes.sum / volumes.length
    let current := volumes.getLast?.getD 0
    let ratio := if avg > 0 then current / avg else 1
    let trend := if ratio > 3/2 then "high"
      else if ratio < 1/2 then "low" else "normal"
    { avg_volume := some avg, current_volume := some current,
      volume_ratio_value := some ratio, volume_trend := some trend }

/-- TechnicalIndicators.calculate_all_indicators.  Returns the empty dict
when the frame is empty or the price column is absent; otherwise fills
every indicator key with the latest value of the corresponding rolling
computation (None for a NaN), sets current_price to the last price, and
merges the volume dictionary when the volume column is present and
nonempty. -/
def calculate_all_indicators (df : DataFrame) : Indicators :=
  if df.nrows = 0 ∨ df.priceCol = none then emptyIndicators
  else
    let prices := df.priceCol.getD []
    let volumes := df.volumeCol.getD []
    let macdT := calculate_macd_last prices
    let bbT := calculate_bollinger_last prices
    let vs := if volumes = [] then ({} : VolumeStats)
      else calculate_volume_analysis volumes
    { rsi := calculate_rsi_last prices 14
      sma_20 := calculate_sma_last prices 20
      sma_50 := calculate_sma_last prices 50
      sma_200 := calculate_sma_last prices 200
      ema_12 := calculate_ema_last prices 12
      ema_26 := calculate_ema_last prices 26
      macd := macdT.1
      macd_signal := macdT.2.1
      macd_histogram := macdT.2.2
      bb_upper := bbT.1
      bb_middle := bbT.2.1
      bb_lower := bbT.2.2
      current_price := prices.getLast?
      avg_volume := vs.avg_volume
      current_volume := vs.current_volume
      volume_ratio_value := vs.volume_ratio_value
      volume_trend := vs.volume_trend }

/-- Count of non-None numeric values in the indicator dict:
`sum(1 for v in indicators.values() if v is not None and isinstance(v,
(int, float)))` in PricePredictor._calculate_confidence.  volume_trend is
a string and never counts. -/
def numericCount (inds : Indicators) : ℕ :=
  (if inds.rsi.isSome then 1 else 0) +
  (if inds.sma_20.isSome then 1 else 0) +
  (if inds.sma_50.isSome then 1 else 0) +
  (if inds.sma_200.isSome then 1 else 0) +
  (if inds.ema_12.isSome then 1 else 0) +
  (if inds.ema_26.isSome then 1 else 0) +
  (if inds.macd.isSome then 1 else 0) +
  (if inds.macd_signal.isSome then 1 else 0) +
  (if inds.macd_histogram.isSome then 1 else 0) +
  (if inds.bb_upper.isSome then 1 else 0) +
  (if inds.bb_middle.isSome then 1 else 0) +
  (if inds.bb_lower.isSome then 1 else 0) +
  (if inds.current_price.isSome then 1 else 0) +
  (if inds.avg_volume.isSome then 1 else 0) +
  (if inds.current_volume.isSome then 1 else 0) +
  (if inds.volume_ratio_value.isSome then 1 else 0)

/-- RSI vote rule of PricePredictor._determine_trend (checked with
`is not None`, i.e. presence, unlike the truthiness checks below). -/
def rsiVoteStep (inds : Indicators) (votes : ℕ × ℕ) : ℕ × ℕ :=
  match inds.rsi with
  | none => votes
  | some r =>
      if r < 30 then (votes.1 + 1, votes.2)
      else if r > 70 then (votes.1, votes.2 + 1)
      else votes

/-- Moving-average vote rule of PricePredictor._determine_trend for one
average: `if sma and current_price > sma: bullish += 1 elif sma and
current_price < sma: bearish += 1`. -/
def maVoteStep (current : ℚ) (o : Option ℚ) (votes : ℕ × ℕ) : ℕ × ℕ :=
  if truthy o ∧ current > o.getD 0 then (votes.1 + 1, votes.2)
  else if truthy o ∧ current < o.getD 0 then (votes.1, votes.2 + 1)
  else votes

/-- EMA crossover vote rule of PricePredictor._determine_trend. -/
def emaVoteStep (inds : Indicators) (votes : ℕ × ℕ) : ℕ × ℕ :=
  if truthy inds.ema_12 ∧ truthy inds.ema_26 ∧
      inds.ema_12.getD 0 > inds.ema_26.getD 0 then (votes.1 + 1, votes.2)
  else if truthy inds.ema_12 ∧ truthy inds.ema_26 ∧
      inds.ema_12.getD 0 < inds.ema_26.getD 0 then (votes.1, votes.2 + 1)
  else votes

/-- MACD-versus-signal vote rule of PricePredictor._determine_trend
(predictor.py lines 156-165): `if macd and macd_signal:` — both values
must be truthy (present and nonzero) — then one bullish vote when
macd > macd_signal and otherwise one bearish vote. -/
def macdVoteStep (inds : Indicators) (votes : ℕ × ℕ) : ℕ × ℕ :=
  if truthy inds.macd ∧ truthy inds.macd_signal then
    (if inds.macd.getD 0 > inds.macd_signal.getD 0 then (votes.1 + 1, votes.2)
     else (votes.1, votes.2 + 1))
  else votes

/-- MACD histogram vote rule of PricePredictor._determine_trend. -/
def histVoteStep (inds : Indicators) (votes : ℕ × ℕ) : ℕ × ℕ :=
  if truthy inds.macd_histogram ∧ inds.macd_histogram.getD 0 > 0 then
    (votes.1 + 1, votes.2)
  else if truthy inds.macd_histogram ∧ inds.macd_histogram.getD 0 < 0 then
    (votes.1, votes.2 + 1)
  else votes

/-- Bollinger-band vote rule of PricePredictor._determine_trend. -/
def bbVoteStep (current : ℚ) (inds : Indicators) (votes : ℕ × ℕ) : ℕ × ℕ :=
  if truthy inds.bb_upper ∧ truthy inds.bb_lower ∧ ¬ current = 0 then
    (if current < inds.bb_lower.getD 0 then (votes.1 + 1, votes.2)
     else if current > inds.bb_upper.getD 0 then (votes.1, votes.2 + 1)
     else votes)
  else votes

/-- Two-point momentum vote rule of PricePredictor._determine_trend: the
percentage change between the last two prices of the data frame.  The
source divides floats; a zero previous price would raise in Python (prices
are positive in the data model), and is modelled by the ℚ convention
x / 0 = 0, which adds no vote. -/
def momentumVoteStep (df : DataFrame) (votes : ℕ × ℕ) : ℕ × ℕ :=
  if df.nrows ≥ 2 then
    let prices := df.priceCol.getD []
    let p1 := prices.getD (prices.length - 1) 0
    let p0 := prices.getD (prices.length - 2) 0
    let change := (p1 - p0) / p0 * 100
    if change > 1 then (votes.1 + 1, votes.2)
    else if change < -1 then (votes.1, votes.2 + 1)
    else votes
  else votes

/-- Volume confirmation rule of PricePredictor._determine_trend: on high
volume, one extra vote to whichever side currently leads. -/
def volumeVoteStep (inds : Indicators) (votes : ℕ × ℕ) : ℕ × ℕ :=
  if inds.volume_trend.getD "normal" = "high" then
    (if votes.1 > votes.2 then (votes.1 + 1, votes.2)
     else if votes.2 > votes.1 then (votes.1, votes.2 + 1)
     else votes)
  else votes

/-- Accumulated (bullish_signals, bearish_signals) of
PricePredictor._determine_trend, rule by rule in source order. -/
def trendVotes (inds : Indicators) (df : DataFrame) : ℕ × ℕ :=
  let current := inds.current_price.getD 0
  let v1 := rsiVoteStep inds (0, 0)
  let v2 := maVoteStep current inds.sma_20 v1
  let v3 := maVoteStep current inds.sma_50 v2
  let v4 := emaVoteStep inds v3
  let v5 := macdVoteStep inds v4
  let v6 := histVoteStep inds v5
  let v7 := bbVoteStep current inds v6
  let v8 := momentumVoteStep df v7
  volumeVoteStep inds v8

/-- PricePredictor._determine_trend: the final ternary decision on the
accumulated votes. -/
def determine_trend (inds : Indicators) (df : DataFrame) : String :=
  let v := trendVotes inds df
  if v.1 > v.2 + 1 then "bullish"
  else if v.2 > v.1 + 1 then "bearish"
  else "neutral"

/-- Trend-dependent base prediction of PricePredictor._predict_price
(the `if trend_direction == ...` chain).  The RSI skew is guarded by
truthiness (`if indicators.get('rsi')`). -/
def predict_base (current : ℚ) (inds : Indicators) (trend tf : String) : ℚ :=
  if trend = "bullish" then
    current * (1 + timeframeMultiplier tf * (if truthy inds.rsi then
      1/2 + (inds.rsi.getD 50 - 30) / 80 else 1/2))
  else if trend = "bearish" then
    current * (1 - timeframeMultiplier tf * (if truthy inds.rsi then
      1/2 + (70 - inds.rsi.getD 50) / 80 else 1/2))
  else
    current * (1 + timeframeMultiplier tf * (1/10))

/-- PricePredictor._predict_price: the base prediction, then the Bollinger
clamp guarded by truthiness of both bounds (`if bb_upper and bb_lower`),
then rounding to 8 decimal places. -/
def predict_price (current : ℚ) (inds : Indicators) (trend : String)
    (tf : String) : ℚ :=
  round8 (if truthy inds.bb_upper ∧ truthy inds.bb_lower then
      max (inds.bb_lower.getD 0 * (19/20))
        (min (inds.bb_upper.getD 0 * (21/20))
          (predict_base current inds trend tf))
    else predict_base current inds trend tf)

/-- PricePredictor._calculate_confidence, accumulating the adjustments in
source order and clamping to [0, 100] at the end. -/
def calculate_confidence (inds : Indicators) (trend : String)
    (df : DataFrame) (tf : String) : ℤ :=
  let c1 : ℤ := 50 + timeframeConfidenceAdjustment tf
  let c2 := c1 + min 20 (2 * (numericCount inds : ℤ))
  let c3 := if trend ≠ "neutral" then c2 + 10 else c2
  let c4 :=
    match inds.rsi with
    | none => c3
    | some r =>
        if r < 25 ∨ r > 75 then c3 + 10
        else if (30 < r ∧ r < 40) ∨ (60 < r ∧ r < 70) then c3 + 5
        else c3
  let c5 := if df.nrows > 100 then c4 + 10
    else if df.nrows > 50 then c4 + 5 else c4
  let cp := inds.current_price
  let c6 :=
    if truthy inds.sma_20 ∧ truthy inds.sma_50 ∧ truthy cp ∧
        ((cp.getD 0 > inds.sma_20.getD 0 ∧ cp.getD 0 < inds.sma_50.getD 0) ∨
         (cp.getD 0 < inds.sma_20.getD 0 ∧ cp.getD 0 > inds.sma_50.getD 0))
    then c5 - 10 else c5
  max 0 (min 100 c6)

/-- Left-pad a digit string with zeros to width k. -/
def padZeros (s : String) (k : ℕ) : String :=
  String.mk (List.replicate (k - s.length) (Char.ofNat 48)) ++ s

/-- Fixed-point decimal formatting with d fractional digits, modelling the
Python format specifier of width d (for example `:.8f`). -/
def fmtFixed (d : ℕ) (q : ℚ) : String :=
  let scaled : ℤ := round (q * (10 : ℚ) ^ d)
  let sign := if scaled < 0 then "-" else ""
  let a := scaled.natAbs
  sign ++ toString (a / 10 ^ d) ++ "." ++ padZeros (toString (a % 10 ^ d)) d

/-- PricePredictor._generate_reasoning: the deterministic delimiter-joined
explanation text. -/
def generate_reasoning (inds : Indicators) (trend : String)
    (predicted current : ℚ) (tf : String) : String :=
  let pct := (predicted - current) / current * 100
  let direction := if pct > 0 then "increase" else "decrease"
  let label := timeframeDisplay tf
  let parts1 : List String :=
    ["Analysis for " ++ label ++ " timeframe:",
     "Current price: $" ++ fmtFixed 8 current,
     "Predicted price: $" ++ fmtFixed 8 predicted ++ " (" ++
       fmtFixed 2 |pct| ++ "% " ++ direction ++ ")",
     "Trend: " ++ trend.toUpper]
  let parts2 : List String :=
    if tf = "7d" ∨ tf = "30d" then
      ["Note: Longer-term predictions (" ++ label ++ ") have higher uncertainty"]
    else []
  let parts3 : List String :=
    match inds.rsi with
    | none => []
    | some r =>
        if r < 30 then ["RSI (" ++ fmtFixed 2 r ++ ") indicates oversold conditions"]
        else if r > 70 then ["RSI (" ++ fmtFixed 2 r ++ ") indicates overbought conditions"]
        else ["RSI (" ++ fmtFixed 2 r ++ ") is in neutral range"]
  let parts4 : List String :=
    if truthy inds.sma_20 ∧ truthy inds.sma_50 then
      (if current > inds.sma_20.getD 0 ∧ inds.sma_20.getD 0 > inds.sma_50.getD 0 then
        ["Price is above both SMA 20 and SMA 50 (bullish)"]
      else if current < inds.sma_20.getD 0 ∧ inds.sma_20.getD 0 < inds.sma_50.getD 0 then
        ["Price is below both SMA 20 and SMA 50 (bearish)"]
      else [])
    else []
  let parts5 : List String :=
    match inds.macd, inds.macd_signal with
    | some m, some s =>
        if m > s then ["MACD is above signal line (bullish momentum)"]
        else ["MACD is below signal line (bearish momentum)"]
    | _, _ => []
  let parts6 : List String :=
    match inds.volume_trend with
    | none => []
    | some vt => if vt = "" then [] else ["Volume is " ++ vt]
  String.intercalate " | " (parts1 ++ parts2 ++ parts3 ++ parts4 ++ parts5 ++ parts6)

/-- PricePredictor.analyze_timeframe.  The data frames modelled here carry
no timestamp column, selecting the point-count windowing branch (tail of
hours·2·12 rows).  The reasoning returned is the basic reasoning: the
local-model enhancer (LocalModelAnalyzer.enhance_reasoning) returns
basic_reasoning unchanged whenever the model is disabled or unavailable,
the only behaviour in scope of the deterministic core. -/
def analyze_timeframe (df : DataFrame) (tf : String) :
    ℚ × ℤ × String × Indicators × String :=
  if df.nrows = 0 then (0, 0, "neutral", emptyIndicators, "No data available")
  else
    let hours := timeframeHours tf
    let dataPointsNeeded := hours * 2 * 12
    let tdf0 := dfTail df (min df.nrows dataPointsNeeded)
    let tdf := if tdf0.nrows = 0 then dfTail df (min df.nrows 50) else tdf0
    let inds := calculate_all_indicators tdf
    if inds.current_price = none then
      (0, 0, "neutral", emptyIndicators, "Insufficient data for analysis")
    else
      let current := inds.current_price.getD 0
      let trend := determine_trend inds tdf
      let predicted := predict_price current inds trend tf
      let conf := calculate_confidence inds trend tdf tf
      let reasoning := generate_reasoning inds trend predicted current tf
      (predicted, conf, trend, inds, reasoning)

/-! Concrete inputs used by the claim theorems below. -/

/-- Constant series: 60 points at price 0.10 (spec section 8 example). -/
def constPrices : List ℚ := List.replicate 60 (1/10)

/-- Data frame holding the constant series (price column only). -/
def dfConst : DataFrame := { priceCol := some constPrices, nrows := 60 }

/-- Indicator dict the engine computes on the constant series: RSI is
undefined (zero average gain and zero average loss give rs = 0/0 = NaN),
SMA200 is undefined (60 < 200 points), MACD values are all 0, and every
moving average and Bollinger band equals the constant price. -/
def indsConst : Indicators :=
  { sma_20 := some (1/10), sma_50 := some (1/10),
    ema_12 := some (1/10), ema_26 := some (1/10),
    macd := some 0, macd_signal := some 0, macd_histogram := some 0,
    bb_upper := some (1/10), bb_middle := some (1/10), bb_lower := some (1/10),
    current_price := some (1/10) }

/-- Confidence formula exactly as the specification words it (spec section
4.5 and claim C2): each indicator-driven term applies whenever the values
it reads are present (non-null); in particular the conflicting-moving-
average penalty of 10 applies whenever SMA20, SMA50 and current_price are
all present and current_price lies strictly between the two averages.
This definition follows the claim text, to be compared against
calculate_confidence, which is translated from the source. -/
def confidenceSpecFormula (inds : Indicators) (trend : String)
    (df : DataFrame) (tf : String) : ℤ :=
  max 0 (min 100 (
    50 + timeframeConfidenceAdjustment tf
    + min 20 (2 * (numericCount inds : ℤ))
    + (if trend ≠ "neutral" then 10 else 0)
    + (match inds.rsi with
       | none => 0
       | some r =>
           if r < 25 ∨ r > 75 then 10
           else if (30 < r ∧ r < 40) ∨ (60 < r ∧ r < 70) then 5 else 0)
    + (if df.nrows > 100 then 10 else if df.nrows > 50 then 5 else 0)
    - (if inds.sma_20.isSome ∧ inds.sma_50.isSome ∧ inds.current_price.isSome ∧
          ((inds.current_price.getD 0 > inds.sma_20.getD 0 ∧
            inds.current_price.getD 0 < inds.sma_50.getD 0) ∨
           (inds.current_price.getD 0 < inds.sma_20.getD 0 ∧
            inds.current_price.getD 0 > inds.sma_50.getD 0))
       then 10 else 0)))

/-- Indicator set with a present-but-zero SMA20 and a current price
strictly between SMA20 and SMA50. -/
def indsConflict : Indicators :=
  { sma_20 := some 0, sma_50 := some 2, current_price := some 1 }

/-- Indicator set in which both Bollinger bounds are present but bb_lower
is 0 (falsy in Python), so the source skips the clamp. -/
def indsBBZero : Indicators := { bb_upper := some 1, bb_lower := some 0 }

/-- Indicator set in which both MACD values are present but macd is 0
(falsy in Python), so the source skips the MACD vote rule. -/
def indsMacdZero : Indicators := { macd := some 0, macd_signal := some 1 }

/-! Helper lemmas about rounding to 8 decimal places. -/

lemma round8_le (x : ℚ) : round8 x ≤ x + 1/200000000 := by
  have h := abs_sub_round (x * 100000000)
  rw [abs_le] at h
  unfold round8
  rw [div_le_iff₀ (by norm_num : (0:ℚ) < 100000000)]
  linarith [h.1]

lemma le_round8 (x : ℚ) : x - 1/200000000 ≤ round8 x := by
  have h := abs_sub_round (x * 100000000)
  rw [abs_le] at h
  unfold round8
  rw [le_div_iff₀ (by norm_num : (0:ℚ) < 100000000)]
  linarith [h.2]

lemma lt_round8 (c x : ℚ) (h : c + 1/200000000 ≤ x) : c < round8 x := by
  have hs := sub_half_lt_round (x * 100000000)
  unfold round8
  rw [lt_div_iff₀ (by norm_num : (0:ℚ) < 100000000)]
  linarith

lemma round8_pos (x : ℚ) (h : 1/200000000 ≤ x) : 0 < round8 x := by
  have := lt_round8 0 x (by linarith)
  simpa using this

/-! Helper lemmas about rolling statistics over a constant series. -/

lemma listTail_replicate (c : ℚ) (n k : ℕ) :
    listTail (List.replicate n c) k = List.replicate (min n k) c := by
  unfold listTail
  rw [List.length_replicate, List.drop_replicate]
  congr 1
  omega

lemma sum_replicate_q (n : ℕ) (c : ℚ) : (List.replicate n c).sum = n * c := by
  rw [List.sum_replicate, nsmul_eq_mul]

lemma diffs_replicate (c : ℚ) (n : ℕ) :
    diffs (List.replicate n c) = List.replicate (n - 1) 0 := by
  unfold diffs
  rw [List.tail_replicate, List.zip_replicate, List.map_replicate]
  have h : min n (n - 1) = n - 1 := by omega
  rw [h]
  norm_num

lemma scanl_const (f : ℚ → ℚ → ℚ) (c : ℚ) (hf : f c c = c) :
    ∀ m, List.scanl f c (List.replicate m c) = List.replicate (m + 1) c := by
  intro m
  induction m with
  | zero => rfl
  | succ k ih =>
      rw [List.replicate_succ, List.scanl_cons, hf, ih]
      rfl

lemma emaSeries_replicate (p n : ℕ) (c : ℚ) :
    emaSeries p (List.replicate n c) = List.replicate n c := by
  cases n with
  | zero => rfl
  | succ m =>
      rw [List.replicate_succ]
      rw [show emaSeries p (c :: List.replicate m c) =
        List.scanl (fun acc q =>
          2 / ((p : ℚ) + 1) * q + (1 - 2 / ((p : ℚ) + 1)) * acc) c
          (List.replicate m c) from rfl]
      rw [scanl_const _ c (by ring)]
      exact (List.replicate_succ c m).symm

lemma getD_replicate (c d : ℚ) (n i : ℕ) (h : i < n) :
    (List.replicate n c).getD i d = c := by
  rw [List.getD_eq_getElem _ _ (by simpa using h)]
  exact List.getElem_replicate c _

lemma rat_sqrt_zero : Rat.sqrt 0 = 0 := by
  have h := Rat.sqrt_eq 0
  rw [mul_zero, abs_zero] at h
  exact h

lemma multiplier_bounds (tf : String) :
    0 < timeframeMultiplier tf ∧ timeframeMultiplier tf ≤ 2/5 := by
  unfold timeframeMultiplier
  split_ifs <;> norm_num

/-! Evaluation of the indicator engine on the constant series. -/

lemma rsi_const : calculate_rsi_last constPrices 14 = none := by
  unfold calculate_rsi_last constPrices avgGainLast avgLossLast
  rw [diffs_replicate]
  norm_num
  rw [listTail_replicate, List.map_replicate]
  norm_num [sum_replicate_q]

lemma sma_const (p : ℕ) (hp : 0 < p) (hlen : p ≤ 60) :
    calculate_sma_last constPrices p = some (1/10) := by
  unfold calculate_sma_last constPrices
  rw [listTail_replicate]
  rw [List.length_replicate, if_neg (by omega)]
  rw [sum_replicate_q]
  have h : min 60 p = p := by omega
  rw [h]
  congr 1
  have hq : (p : ℚ) ≠ 0 := by positivity
  field_simp
  ring

lemma sma200_const : calculate_sma_last constPrices 200 = none := by
  unfold calculate_sma_last constPrices
  rw [List.length_replicate, if_pos (by omega)]

lemma ema_const (p : ℕ) : calculate_ema_last constPrices p = some (1/10) := by
  unfold calculate_ema_last constPrices
  rw [emaSeries_replicate, List.getLast?_replicate]
  norm_num

lemma macd_const : calculate_macd_last constPrices = (some 0, some 0, some 0) := by
  unfold calculate_macd_last macdLineSeries constPrices
  rw [emaSeries_replicate, emaSeries_replicate, List.zipWith_replicate]
  norm_num
  rw [emaSeries_replicate, List.zipWith_replicate]
  norm_num [List.getLast?_replicate]

lemma var_const : rollingVarLast constPrices 20 = some 0 := by
  unfold rollingVarLast constPrices
  rw [List.length_replicate, if_neg (by omega)]
  rw [listTail_replicate]
  norm_num [sum_replicate_q, List.map_replicate]

lemma bb_const :
    calculate_bollinger_last constPrices = (some (1/10), some (1/10), some (1/10)) := by
  unfold calculate_bollinger_last
  rw [sma_const 20 (by omega) (by omega), var_const]
  simp [rat_sqrt_zero]

lemma getLast_const : constPrices.getLast? = some (1/10) := by
  unfold constPrices
  rw [List.getLast?_replicate]
  norm_num

lemma calculate_all_const : calculate_all_indicators dfConst = indsConst := by
  unfold calculate_all_indicators dfConst
  norm_num
  rw [if_neg (show ¬(some constPrices = none) by simp)]
  rw [rsi_const, sma_const 20 (by omega) (by omega), sma_const 50 (by omega) (by omega),
      sma200_const, ema_const 12, ema_const 26, macd_const, bb_const, getLast_const]
  rfl

lemma votes_const : trendVotes indsConst dfConst = (0, 0) := by
  unfold trendVotes rsiVoteStep maVoteStep emaVoteStep macdVoteStep histVoteStep bbVoteStep momentumVoteStep volumeVoteStep indsConst dfConst constPrices
  norm_num [truthy, getD_replicate]

lemma trend_const : determine_trend indsConst dfConst = "neutral" := by
  unfold determine_trend
  rw [votes_const]
  rfl

lemma numericCount_const : numericCount indsConst = 11 := rfl

lemma adj_bounds (tf : String) :
    -25 ≤ timeframeConfidenceAdjustment tf ∧ timeframeConfidenceAdjustment tf ≤ 0 := by
  unfold timeframeConfidenceAdjustment
  split_ifs <;> norm_num

lemma conf_const (tf : String) :
    calculate_confidence indsConst "neutral" dfConst tf = 75 + timeframeConfidenceAdjustment tf := by
  have hb := adj_bounds tf
  unfold calculate_confidence
  rw [numericCount_const]
  norm_num [indsConst, dfConst, truthy]
  omega

/-! Claim theorems. -/

/-- Claim C1: for every input data frame that is empty or lacks the price
column, analyze_timeframe returns the defined insufficient-data result —
predicted price 0, confidence 0, trend neutral, empty indicator set and an
explanatory text — and calculate_all_indicators returns the empty mapping.
(The embedding is total, reflecting that these paths raise no exception.) -/
theorem claim_C1 (df : DataFrame) (tf : String)
    (h : df.nrows = 0 ∨ df.priceCol = none) :
    analyze_timeframe df tf =
      (0, 0, "neutral", emptyIndicators,
        if df.nrows = 0 then "No data available"
        else "Insufficient data for analysis") ∧
    calculate_all_indicators df = emptyIndicators := by
  constructor
  · by_cases h0 : df.nrows = 0
    · unfold analyze_timeframe
      rw [if_pos h0, if_pos h0]
    · have hp : df.priceCol = none := h.resolve_left h0
      unfold analyze_timeframe
      rw [if_neg h0, if_neg h0]
      have hnone : ∀ k, calculate_all_indicators (dfTail df k) = emptyIndicators := by
        intro k
        unfold calculate_all_indicators
        rw [if_pos (Or.inr (by simp [dfTail, hp]))]
      simp only [apply_ite calculate_all_indicators, hnone, ite_self]
      simp [emptyIndicators]
  · unfold calculate_all_indicators
    rw [if_pos h]

/-- Witness for claim C1 at the empty data frame. -/
theorem claim_C1_witness :
    analyze_timeframe {} "1h" = (0, 0, "neutral", emptyIndicators, "No data available") ∧
    calculate_all_indicators {} = emptyIndicators := by
  have h := claim_C1 {} "1h" (Or.inl rfl)
  simpa using h

/-- Claim C2, counterexample: on an indicator set whose SMA20 is present
but zero, current price 1, SMA50 = 2 (current price strictly between the
averages), the source skips the −10 conflict penalty because the Python
guard `if sma_20 and sma_50 and current_price:` tests truthiness, not
presence: the code returns 56 while the formula stated by the claim gives
46. -/
theorem claim_C2_counterexample :
    calculate_confidence indsConflict "neutral" {} "1h" = 56 ∧
    confidenceSpecFormula indsConflict "neutral" {} "1h" = 46 ∧
    calculate_confidence indsConflict "neutral" {} "1h" ≠
      confidenceSpecFormula indsConflict "neutral" {} "1h" := by
  refine ⟨?_, ?_, ?_⟩
  · norm_num [calculate_confidence, truthy, timeframeConfidenceAdjustment,
      numericCount, indsConflict]
  · norm_num [confidenceSpecFormula, timeframeConfidenceAdjustment,
      numericCount, indsConflict]
  · norm_num [calculate_confidence, confidenceSpecFormula, truthy,
      timeframeConfidenceAdjustment, numericCount, indsConflict]

/-- Claim C2, amended: the confidence scorer returns exactly the integer
clamp to [0,100] of the stated sum, with the conflict penalty applied only
when SMA20, SMA50 and current_price are all truthy (present and nonzero)
and current_price lies strictly between the two averages; the result is
always an integer in [0,100]. -/
theorem claim_C2_amended (inds : Indicators) (trend : String)
    (df : DataFrame) (tf : String) :
    calculate_confidence inds trend df tf =
      max 0 (min 100 (
        50 + timeframeConfidenceAdjustment tf
        + min 20 (2 * (numericCount inds : ℤ))
        + (if trend ≠ "neutral" then 10 else 0)
        + (match inds.rsi with
           | none => 0
           | some r =>
               if r < 25 ∨ r > 75 then 10
               else if (30 < r ∧ r < 40) ∨ (60 < r ∧ r < 70) then 5 else 0)
        + (if df.nrows > 100 then 10 else if df.nrows > 50 then 5 else 0)
        - (if truthy inds.sma_20 ∧ truthy inds.sma_50 ∧ truthy inds.current_price ∧
              ((inds.current_price.getD 0 > inds.sma_20.getD 0 ∧
                inds.current_price.getD 0 < inds.sma_50.getD 0) ∨
               (inds.current_price.getD 0 < inds.sma_20.getD 0 ∧
                inds.current_price.getD 0 > inds.sma_50.getD 0))
           then 10 else 0))) ∧
    0 ≤ calculate_confidence inds trend df tf ∧
    calculate_confidence inds trend df tf ≤ 100 := by
  have heq : calculate_confidence inds trend df tf =
      max 0 (min 100 (
        50 + timeframeConfidenceAdjustment tf
        + min 20 (2 * (numericCount inds : ℤ))
        + (if trend ≠ "neutral" then 10 else 0)
        + (match inds.rsi with
           | none => 0
           | some r =>
               if r < 25 ∨ r > 75 then 10
               else if (30 < r ∧ r < 40) ∨ (60 < r ∧ r < 70) then 5 else 0)
        + (if df.nrows > 100 then 10 else if df.nrows > 50 then 5 else 0)
        - (if truthy inds.sma_20 ∧ truthy inds.sma_50 ∧ truthy inds.current_price ∧
              ((inds.current_price.getD 0 > inds.sma_20.getD 0 ∧
                inds.current_price.getD 0 < inds.sma_50.getD 0) ∨
               (inds.current_price.getD 0 < inds.sma_20.getD 0 ∧
                inds.current_price.getD 0 > inds.sma_50.getD 0))
           then 10 else 0))) := by
    unfold calculate_confidence
    rcases inds.rsi with _ | r <;> dsimp only <;> split_ifs <;> omega
  refine ⟨heq, ?_, ?_⟩
  · rw [heq]; exact le_max_left 0 _
  · rw [heq]
    exact max_le (by norm_num) (min_le_left 100 _)

/-- Claim C3, counterexample: with both Bollinger bounds present but
bb_lower = 0 (falsy in Python), the clamp `if bb_upper and bb_lower:` is
skipped and the neutral prediction from current price 100 is 100.2, far
above bb_upper·1.05 = 1.05, so the predicted price does not lie in the
claimed envelope. -/
theorem claim_C3_counterexample :
    indsBBZero.bb_lower = some 0 ∧ indsBBZero.bb_upper = some 1 ∧
    predict_price 100 indsBBZero "neutral" "1h" = 501/5 ∧
    ¬ (predict_price 100 indsBBZero "neutral" "1h" ≤
        indsBBZero.bb_upper.getD 0 * (21/20)) := by
  have h1 : ("neutral" : String) ≠ "bullish" := by decide
  have h2 : ("neutral" : String) ≠ "bearish" := by decide
  have heq : predict_price 100 indsBBZero "neutral" "1h" = 501/5 := by
    norm_num [predict_price, predict_base, truthy, timeframeMultiplier, round8,
      indsBBZero, if_neg h1, if_neg h2, round_eq]
  refine ⟨rfl, rfl, heq, ?_⟩
  rw [heq]
  norm_num [indsBBZero]

/-- Claim C3, amended: when both Bollinger bounds are truthy (present and
nonzero) and the envelope is nonempty (bb_lower·0.95 ≤ bb_upper·1.05), the
pre-rounding prediction is clamped to [bb_lower·0.95, bb_upper·1.05], so
the returned value lies in that interval widened by the 8-decimal rounding
half-quantum 5·10⁻⁹ on each side. -/
theorem claim_C3_amended (current : ℚ) (inds : Indicators) (trend tf : String)
    (lo hi : ℚ) (hlo : inds.bb_lower = some lo) (hhi : inds.bb_upper = some hi)
    (hlo0 : lo ≠ 0) (hhi0 : hi ≠ 0) (hle : lo * (19/20) ≤ hi * (21/20)) :
    lo * (19/20) - 1/200000000 ≤ predict_price current inds trend tf ∧
    predict_price current inds trend tf ≤ hi * (21/20) + 1/200000000 := by
  unfold predict_price
  simp only [hlo, hhi]
  rw [if_pos (by simp [truthy, hhi0, hlo0])]
  simp only [Option.getD_some]
  constructor
  · have ha := le_round8 (max (lo * (19/20))
      (min (hi * (21/20)) (predict_base current inds trend tf)))
    have hb := le_max_left (lo * (19/20))
      (min (hi * (21/20)) (predict_base current inds trend tf))
    linarith
  · have ha := round8_le (max (lo * (19/20))
      (min (hi * (21/20)) (predict_base current inds trend tf)))
    have hb := max_le hle
      (min_le_left (hi * (21/20)) (predict_base current inds trend tf))
    linarith

/-- Witness for amended claim C3 at bounds 1 and 1 and current price 100. -/
theorem claim_C3_witness :
    (19:ℚ)/20 - 1/200000000 ≤ predict_price 100
      { bb_upper := some 1, bb_lower := some 1 } "neutral" "1h" ∧
    predict_price 100 { bb_upper := some 1, bb_lower := some 1 } "neutral" "1h" ≤
      (21:ℚ)/20 + 1/200000000 := by
  have h := claim_C3_amended 100 { bb_upper := some 1, bb_lower := some 1 }
    "neutral" "1h" 1 1 rfl rfl (by norm_num) (by norm_num) (by norm_num)
  constructor
  · have := h.1; linarith
  · have := h.2; linarith

/-- Claim C4: the trend classifier returns bullish iff the bullish votes
strictly exceed the bearish votes plus 1, bearish iff the bearish votes
strictly exceed the bullish votes plus 1, and neutral otherwise. -/
theorem claim_C4 (inds : Indicators) (df : DataFrame) :
    (determine_trend inds df = "bullish" ↔
      (trendVotes inds df).1 > (trendVotes inds df).2 + 1) ∧
    (determine_trend inds df = "bearish" ↔
      (trendVotes inds df).2 > (trendVotes inds df).1 + 1) ∧
    (determine_trend inds df = "neutral" ↔
      (¬ (trendVotes inds df).1 > (trendVotes inds df).2 + 1 ∧
       ¬ (trendVotes inds df).2 > (trendVotes inds df).1 + 1)) := by
  unfold determine_trend
  by_cases h1 : (trendVotes inds df).1 > (trendVotes inds df).2 + 1
  · rw [if_pos h1]
    refine ⟨by simp [h1], ?_, ?_⟩
    · constructor
      · intro h; exact absurd h (by decide)
      · intro h; omega
    · constructor
      · intro h; exact absurd h (by decide)
      · intro h; exact absurd h1 h.1
  · rw [if_neg h1]
    by_cases h2 : (trendVotes inds df).2 > (trendVotes inds df).1 + 1
    · rw [if_pos h2]
      refine ⟨?_, by simp [h2], ?_⟩
      · constructor
        · intro h; exact absurd h (by decide)
        · intro h; exact absurd h h1
      · constructor
        · intro h; exact absurd h (by decide)
        · intro h; exact absurd h2 h.2
    · rw [if_neg h2]
      refine ⟨?_, ?_, by simp [h1, h2]⟩
      · constructor
        · intro h; exact absurd h (by decide)
        · intro h; exact absurd h h1
      · constructor
        · intro h; exact absurd h (by decide)
        · intro h; exact absurd h h2

/-- Claim C5, counterexample: on an indicator set with MACD present but
zero and signal present, the MACD rule of the trend classifier adds no
vote at all (the Python guard `if macd and macd_signal:` tests truthiness,
not presence), contradicting the claim that every such set contributes
exactly one vote. -/
theorem claim_C5_counterexample :
    indsMacdZero.macd = some 0 ∧ indsMacdZero.macd_signal = some 1 ∧
    macdVoteStep indsMacdZero (0, 0) = (0, 0) := by
  refine ⟨rfl, rfl, ?_⟩
  unfold macdVoteStep indsMacdZero
  norm_num [truthy]

/-- Claim C5, amended: when both MACD and signal are truthy (present and
nonzero), the rule adds exactly one bullish vote if MACD > signal and
otherwise one bearish vote; when either value is absent or zero, the rule
adds no vote. -/
theorem claim_C5_amended (inds : Indicators) (b s : ℕ) :
    (∀ m sg, inds.macd = some m → inds.macd_signal = some sg → m ≠ 0 → sg ≠ 0 →
      macdVoteStep inds (b, s) =
        if m > sg then (b + 1, s) else (b, s + 1)) ∧
    ((truthy inds.macd = false ∨ truthy inds.macd_signal = false) →
      macdVoteStep inds (b, s) = (b, s)) := by
  constructor
  · intro m sg hm hsg hm0 hsg0
    unfold macdVoteStep
    rw [hm, hsg]
    simp [truthy, hm0, hsg0]
  · intro h
    unfold macdVoteStep
    rcases h with h | h <;> simp [h]

/-- Witness for amended claim C5: MACD 1 below signal 2 adds one bearish
vote. -/
theorem claim_C5_witness :
    macdVoteStep { macd := some 1, macd_signal := some 2 } (0, 0) = (0, 1) := by
  have h := (claim_C5_amended { macd := some 1, macd_signal := some 2 } 0 0).1 1 2
    rfl rfl (by norm_num) (by norm_num)
  rw [h]
  norm_num

/-- Claim C6, counterexample: at current price 10⁻⁸ with no Bollinger
bounds and neutral trend on the 1h timeframe, the predicted price equals
the current price after rounding to 8 decimals — the drift is not strictly
upward. -/
theorem claim_C6_counterexample :
    predict_price (1/100000000) emptyIndicators "neutral" "1h" = 1/100000000 ∧
    ¬ ((1:ℚ)/100000000 < predict_price (1/100000000) emptyIndicators "neutral" "1h") := by
  have h1 : ("neutral" : String) ≠ "bullish" := by decide
  have h2 : ("neutral" : String) ≠ "bearish" := by decide
  have heq : predict_price (1/100000000) emptyIndicators "neutral" "1h" = 1/100000000 := by
    norm_num [predict_price, predict_base, truthy, timeframeMultiplier, round8,
      emptyIndicators, if_neg h1, if_neg h2, round_eq]
  exact ⟨heq, by rw [heq]; exact lt_irrefl _⟩

/-- Claim C6, amended: with no Bollinger bounds and neutral trend the
predicted price equals current·(1 + m·0.1) rounded to 8 decimal places,
and it is strictly greater than the current price whenever the drift
current·m·0.1 is at least the rounding half-quantum 5·10⁻⁹ (the
pre-rounding value is always strictly greater). -/
theorem claim_C6_amended (current : ℚ) (inds : Indicators) (tf : String)
    (hbu : inds.bb_upper = none) (hbl : inds.bb_lower = none) (hc : 0 < current) :
    predict_price current inds "neutral" tf =
      round8 (current * (1 + timeframeMultiplier tf * (1/10))) ∧
    (1/200000000 ≤ current * (timeframeMultiplier tf * (1/10)) →
      current < predict_price current inds "neutral" tf) := by
  have h1 : ("neutral" : String) ≠ "bullish" := by decide
  have h2 : ("neutral" : String) ≠ "bearish" := by decide
  have heq : predict_price current inds "neutral" tf =
      round8 (current * (1 + timeframeMultiplier tf * (1/10))) := by
    unfold predict_price predict_base
    simp only [hbu, hbl]
    rw [if_neg (by simp [truthy]), if_neg h1, if_neg h2]
  refine ⟨heq, ?_⟩
  intro hd
  rw [heq]
  apply lt_round8
  have hx : current * (1 + timeframeMultiplier tf * (1/10)) =
      current + current * (timeframeMultiplier tf * (1/10)) := by ring
  rw [hx]
  linarith

/-- Witness for amended claim C6 at current price 1 on the 1h timeframe. -/
theorem claim_C6_witness :
    predict_price 1 emptyIndicators "neutral" "1h" =
      round8 (1 * (1 + timeframeMultiplier "1h" * (1/10))) ∧
    (1:ℚ) < predict_price 1 emptyIndicators "neutral" "1h" := by
  have h := claim_C6_amended 1 emptyIndicators "1h" rfl rfl (by norm_num)
  exact ⟨h.1, h.2 (by norm_num [timeframeMultiplier])⟩

/-- Claim C7, counterexample: a series of length 2 with period 2 satisfies
len < period + 1, yet the latest SMA is defined (3/2) and the latest EMA
is defined — pandas rolling(period).mean needs only period points (not
period + 1) and ewm(adjust=False) is seeded by the first observation. -/
theorem claim_C7_counterexample :
    (([1, 2] : List ℚ).length < 2 + 1) ∧
    calculate_sma_last [1, 2] 2 = some (3/2) ∧
    (calculate_ema_last [1, 2] 2).isSome = true := by
  refine ⟨by norm_num, ?_, ?_⟩
  · norm_num [calculate_sma_last, listTail]
  · rfl

/-- Claim C7, amended: the latest RSI is undefined whenever
len < period + 1; the latest SMA is undefined exactly when len < period;
the latest EMA is defined for every nonempty series. -/
theorem claim_C7_amended (prices : List ℚ) (period : ℕ) :
    (prices.length < period + 1 → calculate_rsi_last prices period = none) ∧
    (calculate_sma_last prices period = none ↔ prices.length < period) ∧
    (prices ≠ [] → (calculate_ema_last prices period).isSome = true) := by
  refine ⟨?_, ?_, ?_⟩
  · intro h
    unfold calculate_rsi_last
    rw [if_pos h]
  · unfold calculate_sma_last
    by_cases h : prices.length < period
    · simp [h]
    · simp [h]
  · intro h
    unfold calculate_ema_last
    rw [List.getLast?_isSome]
    cases prices with
    | nil => exact absurd rfl h
    | cons x xs =>
        show List.scanl _ x xs ≠ []
        have hl := List.length_scanl (f := fun acc q =>
          2 / ((period : ℚ) + 1) * q + (1 - 2 / ((period : ℚ) + 1)) * acc) x xs
        intro hc
        rw [hc] at hl
        simp at hl

/-- Witness for amended claim C7 on the one-point series with period 2. -/
theorem claim_C7_witness :
    calculate_rsi_last [1] 2 = none ∧ calculate_sma_last [1] 2 = none ∧
    (calculate_ema_last [1] 2).isSome = true := by
  obtain ⟨h1, h2, h3⟩ := claim_C7_amended [1] 2
  exact ⟨h1 (by norm_num), h2.mpr (by norm_num), h3 (by simp)⟩

/-- Claim C8, counterexample: on the constant series of 60 points at 0.10
the RSI warm-up (14 + 1 points) is satisfied, yet the latest RSI is
undefined — average gain and average loss are both 0, so rs = 0/0 = NaN
and the engine stores None, contrary to the claim that the zero/zero case
resolves to a defined value. -/
theorem claim_C8_counterexample :
    constPrices.length = 60 ∧ 14 + 1 ≤ constPrices.length ∧
    (calculate_all_indicators dfConst).rsi = none := by
  refine ⟨by simp [constPrices], by simp [constPrices], ?_⟩
  rw [calculate_all_const]
  rfl

/-- Claim C8, amended: on the constant series of 60 points at 0.10 the RSI
is undefined (the zero-gain, zero-loss case yields null), the classified
trend is neutral, and for every timeframe the confidence equals 50 plus
the timeframe adjustment plus the indicator-count bonus 20 plus the
data-size bonus 5 (60 points exceed 50). -/
theorem claim_C8_amended :
    (calculate_all_indicators dfConst).rsi = none ∧
    determine_trend (calculate_all_indicators dfConst) dfConst = "neutral" ∧
    ∀ tf, calculate_confidence (calculate_all_indicators dfConst) "neutral" dfConst tf =
      50 + timeframeConfidenceAdjustment tf + 20 + 5 := by
  rw [calculate_all_const]
  refine ⟨rfl, trend_const, ?_⟩
  intro tf
  rw [conf_const tf]
  ring

/-- Claim C9: whenever the RSI warm-up is satisfied, a zero rolling
average loss with positive average gain yields RSI exactly 100 (a defined
sentinel, modelling rs → ∞, not NaN), and zero average gain with zero
average loss yields an undefined (null) RSI; in the embedding both
outcomes are total values, never an error, and a null RSI is excluded from
all downstream scoring. -/
theorem claim_C9 (prices : List ℚ) (period : ℕ) (h : period + 1 ≤ prices.length) :
    (avgLossLast prices period = 0 → 0 < avgGainLast prices period →
      calculate_rsi_last prices period = some 100) ∧
    (avgLossLast prices period = 0 → avgGainLast prices period = 0 →
      calculate_rsi_last prices period = none) := by
  constructor
  · intro hl hg
    unfold calculate_rsi_last
    rw [if_neg (by omega), if_pos hl, if_neg (ne_of_gt hg)]
  · intro hl hg
    unfold calculate_rsi_last
    rw [if_neg (by omega), if_pos hl, if_pos hg]

/-- Witness for claim C9: a strictly rising pair gives RSI 100, a constant
pair gives an undefined RSI. -/
theorem claim_C9_witness :
    calculate_rsi_last [1, 2] 1 = some 100 ∧ calculate_rsi_last [1, 1] 1 = none := by
  constructor
  · refine (claim_C9 [1, 2] 1 (by norm_num)).1 ?_ ?_ <;>
      norm_num [avgLossLast, avgGainLast, diffs, listTail]
  · refine (claim_C9 [1, 1] 1 (by norm_num)).2 ?_ ?_ <;>
      norm_num [avgLossLast, avgGainLast, diffs, listTail]

/-- Claim C10, counterexample: at the positive current price 10⁻⁹ with no
indicators and neutral trend on the 1h timeframe, the predicted price
rounds to exactly 0 — not strictly positive. -/
theorem claim_C10_counterexample :
    (0 : ℚ) < 1/1000000000 ∧
    predict_price (1/1000000000) emptyIndicators "neutral" "1h" = 0 := by
  have h1 : ("neutral" : String) ≠ "bullish" := by decide
  have h2 : ("neutral" : String) ≠ "bearish" := by decide
  constructor
  · norm_num
  · norm_num [predict_price, predict_base, truthy, timeframeMultiplier, round8,
      emptyIndicators, if_neg h1, if_neg h2, round_eq]

/-- Claim C10, amended: for positive current price the pre-clamp
prediction is at least 0.45·current for any trend and timeframe provided
the RSI value, when present, lies in [0,100]; consequently the returned
predicted price is strictly positive whenever 0.45·current exceeds the
rounding half-quantum 5·10⁻⁹ and, if both Bollinger bounds are truthy,
bb_upper·1.05 also exceeds it. -/
theorem claim_C10_amended (current : ℚ) (inds : Indicators) (trend tf : String)
    (hc : 0 < current)
    (hr : ∀ r, inds.rsi = some r → 0 ≤ r ∧ r ≤ 100)
    (hcur : 1/200000000 < current * (9/20))
    (hbb : truthy inds.bb_upper = true → truthy inds.bb_lower = true →
      1/200000000 < inds.bb_upper.getD 0 * (21/20)) :
    0 < predict_price current inds trend tf := by
  obtain ⟨hm0, hm1⟩ := multiplier_bounds tf
  have hbase : current * (9/20) ≤ predict_base current inds trend tf := by
    unfold predict_base
    split_ifs with hb1 hb2 hb3 hb4
    · rcases hrr : inds.rsi with _ | r
      · rw [hrr] at hb2; simp [truthy] at hb2
      · obtain ⟨hr0, hr1⟩ := hr r hrr
        simp only [Option.getD_some]
        have hpos : 0 ≤ timeframeMultiplier tf * (1/2 + (r - 30)/80) :=
          mul_nonneg hm0.le (by linarith)
        nlinarith [mul_nonneg hc.le hpos]
    · have hpos : 0 ≤ timeframeMultiplier tf * (1/2 : ℚ) :=
        mul_nonneg hm0.le (by norm_num)
      nlinarith [mul_nonneg hc.le hpos]
    · rcases hrr : inds.rsi with _ | r
      · rw [hrr] at hb4; simp [truthy] at hb4
      · obtain ⟨hr0, hr1⟩ := hr r hrr
        simp only [Option.getD_some]
        have hfac1 : (0:ℚ) ≤ 1/2 + (70 - r)/80 := by linarith
        have hfac2 : 1/2 + (70 - r)/80 ≤ (11:ℚ)/8 := by linarith
        have hprod : timeframeMultiplier tf * (1/2 + (70 - r)/80) ≤ (2/5) * ((11:ℚ)/8) :=
          mul_le_mul hm1 hfac2 hfac1 (by norm_num)
        nlinarith [mul_le_mul_of_nonneg_left hprod hc.le]
    · have hprod : timeframeMultiplier tf * ((1:ℚ)/2) ≤ (2/5) * ((1:ℚ)/2) :=
        mul_le_mul_of_nonneg_right hm1 (by norm_num)
      nlinarith [mul_le_mul_of_nonneg_left hprod hc.le]
    · have hpos : 0 ≤ timeframeMultiplier tf * ((1:ℚ)/10) :=
        mul_nonneg hm0.le (by norm_num)
      nlinarith [mul_nonneg hc.le hpos]
  unfold predict_price
  by_cases hcl : truthy inds.bb_upper = true ∧ truthy inds.bb_lower = true
  · rw [if_pos hcl]
    apply round8_pos
    have hu := hbb hcl.1 hcl.2
    have hmin : 1/200000000 < min (inds.bb_upper.getD 0 * (21/20))
        (predict_base current inds trend tf) :=
      lt_min hu (lt_of_lt_of_le hcur hbase)
    have hmax := le_max_right (inds.bb_lower.getD 0 * (19/20))
      (min (inds.bb_upper.getD 0 * (21/20)) (predict_base current inds trend tf))
    linarith
  · rw [if_neg hcl]
    apply round8_pos
    linarith

/-- Witness for amended claim C10 at current price 1, bullish trend, 24h
timeframe. -/
theorem claim_C10_witness :
    0 < predict_price 1 emptyIndicators "bullish" "24h" := by
  refine claim_C10_amended 1 emptyIndicators "bullish" "24h" (by norm_num) ?_
    (by norm_num) ?_
  · intro r h
    simp [emptyIndicators] at h
  · intro h
    simp [truthy, emptyIndicators] at h

end DogeAnalyzer
